import Mathlib

/-!
Verification development for the teachme repository.

Shallow embedding of the generate-render-repair pipeline:
  * `src/teachme/utils/manim_runner.py` — code validation, scene-name
    extraction, gated rendering (`ManimRunner`);
  * `src/teachme/agents/animation.py` — `ManimCodeGenerator`, in particular
    `_generate_and_render_with_retry`, `_call_llm_for_script`,
    `_review_manim_script`, `_save_successful_script`, `generate`;
  * `src/teachme/config.py` — policy constants.

External collaborators (the OpenAI client, the manim subprocess, the
filesystem, the wall clock) are modelled as oracles supplied in an
environment record; the pipeline's own control flow is translated
faithfully from the source.  Python source text is modelled as a raw
string paired with the outcome of `ast.parse` on it (`SourceText`), since
the parser itself is standard-library behaviour outside this repository.
-/

/-! ## Python AST model (the fragment `ast.walk` traversals inspect)

Mirrors the `ast` node classes used by `validate_code` and
`extract_scene_name` in `src/teachme/utils/manim_runner.py`: `Module`,
`Import` (whose children are `alias` nodes), `ImportFrom`, `ClassDef`,
`FunctionDef`, `Expr`, `Pass`, `Call`, `Name`, `Attribute`, `Constant`.
-/

inductive PyNode where
  | module (body : List PyNode)
  | importStmt (names : List String)
  | importFrom (moduleName : Option String) (names : List String)
  | aliasNode (nm : String)
  | classDef (nm : String) (bases : List PyNode) (body : List PyNode)
  | functionDef (nm : String) (body : List PyNode)
  | exprStmt (value : PyNode)
  | passStmt
  | call (fn : PyNode) (args : List PyNode)
  | name (id : String)
  | attrExpr (value : PyNode) (attrName : String)
  | constant

open PyNode

/-- `ast.iter_child_nodes`: the direct children of a node, in field order. -/
def PyNode.children : PyNode → List PyNode
  | module body => body
  | importStmt names => names.map aliasNode
  | importFrom _ names => names.map aliasNode
  | aliasNode _ => []
  | classDef _ bases body => bases ++ body
  | functionDef _ body => body
  | exprStmt value => [value]
  | passStmt => []
  | call fn args => fn :: args
  | name _ => []
  | attrExpr value _ => [value]
  | constant => []

mutual

/-- Total number of nodes in the tree rooted at a node. -/
def PyNode.size : PyNode → Nat
  | module body => 1 + PyNode.sizeList body
  | importStmt names => 1 + names.length
  | importFrom _ names => 1 + names.length
  | aliasNode _ => 1
  | classDef _ bases body => 1 + PyNode.sizeList bases + PyNode.sizeList body
  | functionDef _ body => 1 + PyNode.sizeList body
  | exprStmt value => 1 + PyNode.size value
  | passStmt => 1
  | call fn args => 1 + PyNode.size fn + PyNode.sizeList args
  | name _ => 1
  | attrExpr value _ => 1 + PyNode.size value
  | constant => 1

def PyNode.sizeList : List PyNode → Nat
  | [] => 0
  | n :: ns => PyNode.size n + PyNode.sizeList ns

end

mutual

/-- All nodes of the tree rooted at a node (pre-order); used as the
reference enumeration against which the breadth-first `walk` is compared. -/
def PyNode.subnodes : PyNode → List PyNode
  | module body => module body :: PyNode.subnodesList body
  | importStmt names => importStmt names :: names.map aliasNode
  | importFrom m names => importFrom m names :: names.map aliasNode
  | aliasNode nm => [aliasNode nm]
  | classDef nm bases body =>
      classDef nm bases body :: (PyNode.subnodesList bases ++ PyNode.subnodesList body)
  | functionDef nm body => functionDef nm body :: PyNode.subnodesList body
  | exprStmt value => exprStmt value :: PyNode.subnodes value
  | passStmt => [passStmt]
  | call fn args => call fn args :: (PyNode.subnodes fn ++ PyNode.subnodesList args)
  | name id => [name id]
  | attrExpr value a => attrExpr value a :: PyNode.subnodes value
  | constant => [constant]

def PyNode.subnodesList : List PyNode → List PyNode
  | [] => []
  | n :: ns => PyNode.subnodes n ++ PyNode.subnodesList ns

end

theorem PyNode.sizeList_append (l₁ l₂ : List PyNode) :
    PyNode.sizeList (l₁ ++ l₂) = PyNode.sizeList l₁ + PyNode.sizeList l₂ := by
  induction l₁ with
  | nil => simp [PyNode.sizeList]
  | cons a as ih => simp [PyNode.sizeList, ih]; omega

theorem PyNode.sizeList_map_alias (names : List String) :
    PyNode.sizeList (names.map aliasNode) = names.length := by
  induction names with
  | nil => simp [PyNode.sizeList]
  | cons a as ih => simp [PyNode.sizeList, PyNode.size, ih]; omega

theorem PyNode.subnodesList_append (l₁ l₂ : List PyNode) :
    PyNode.subnodesList (l₁ ++ l₂) = PyNode.subnodesList l₁ ++ PyNode.subnodesList l₂ := by
  induction l₁ with
  | nil => simp [PyNode.subnodesList]
  | cons a as ih => simp [PyNode.subnodesList, ih]

theorem PyNode.subnodesList_map_alias (names : List String) :
    PyNode.subnodesList (names.map aliasNode) = names.map aliasNode := by
  induction names with
  | nil => simp [PyNode.subnodesList]
  | cons a as ih => simp [PyNode.subnodesList, PyNode.subnodes, ih]

theorem PyNode.size_eq (n : PyNode) : n.size = 1 + PyNode.sizeList n.children := by
  cases n <;>
    first
    | (simp [PyNode.size, PyNode.children, PyNode.sizeList, PyNode.sizeList_append,
        PyNode.sizeList_map_alias]; omega)
    | simp [PyNode.size, PyNode.children, PyNode.sizeList, PyNode.sizeList_append,
        PyNode.sizeList_map_alias]

theorem PyNode.subnodes_eq (n : PyNode) :
    n.subnodes = n :: PyNode.subnodesList n.children := by
  cases n <;>
    simp [PyNode.subnodes, PyNode.children, PyNode.subnodesList,
      PyNode.subnodesList_append, PyNode.subnodesList_map_alias]

theorem PyNode.size_pos (n : PyNode) : 1 ≤ n.size := by
  rw [PyNode.size_eq]; omega

theorem PyNode.mem_subnodesList {x : PyNode} {l : List PyNode} :
    x ∈ PyNode.subnodesList l ↔ ∃ r ∈ l, x ∈ r.subnodes := by
  induction l with
  | nil => simp [PyNode.subnodesList]
  | cons a as ih =>
    simp [PyNode.subnodesList, ih]

/-- Breadth-first traversal queue with explicit fuel; `ast.walk` maintains a
deque seeded with the root, repeatedly popping a node, yielding it and
appending its children. -/
def bfsWalk : Nat → List PyNode → List PyNode
  | _, [] => []
  | 0, _ :: _ => []
  | fuel + 1, n :: rest => n :: bfsWalk fuel (rest ++ n.children)

/-- `ast.walk(node)`: all nodes of the tree in breadth-first order.  The
fuel `node.size` is exactly the number of nodes yielded. -/
def walk (n : PyNode) : List PyNode := bfsWalk n.size [n]

theorem mem_bfsWalk {x : PyNode} :
    ∀ (fuel : Nat) (todo : List PyNode), PyNode.sizeList todo ≤ fuel →
    (x ∈ bfsWalk fuel todo ↔ ∃ r ∈ todo, x ∈ r.subnodes) := by
  intro fuel
  induction fuel with
  | zero =>
    intro todo h
    cases todo with
    | nil => simp [bfsWalk]
    | cons a as =>
      exfalso
      have := PyNode.size_pos a
      simp [PyNode.sizeList] at h
      omega
  | succ fuel ih =>
    intro todo h
    cases todo with
    | nil => simp [bfsWalk]
    | cons a as =>
      have hsz : PyNode.sizeList (as ++ a.children) ≤ fuel := by
        rw [PyNode.sizeList_append]
        have := PyNode.size_eq a
        simp [PyNode.sizeList] at h
        omega
      rw [bfsWalk]
      simp only [List.mem_cons, ih (as ++ a.children) hsz]
      constructor
      · rintro (rfl | ⟨r, hr, hx⟩)
        · exact ⟨x, Or.inl rfl, by rw [PyNode.subnodes_eq]; exact List.mem_cons_self _ _⟩
        · rcases List.mem_append.mp hr with h₁ | h₂
          · exact ⟨r, Or.inr h₁, hx⟩
          · refine ⟨a, Or.inl rfl, ?_⟩
            rw [PyNode.subnodes_eq]
            exact List.mem_cons.mpr (Or.inr (PyNode.mem_subnodesList.mpr ⟨r, h₂, hx⟩))
      · rintro ⟨r, (rfl | hr), hx⟩
        · rw [PyNode.subnodes_eq] at hx
          rcases List.mem_cons.mp hx with rfl | hx
          · exact Or.inl rfl
          · rcases PyNode.mem_subnodesList.mp hx with ⟨c, hc, hxc⟩
            exact Or.inr ⟨c, List.mem_append.mpr (Or.inr hc), hxc⟩
        · exact Or.inr ⟨r, List.mem_append.mpr (Or.inl hr), hx⟩

theorem mem_walk {x n : PyNode} : x ∈ walk n ↔ x ∈ n.subnodes := by
  have h : PyNode.sizeList [n] ≤ n.size := by simp [PyNode.sizeList]
  rw [walk, mem_bfsWalk n.size [n] h]
  simp

/-! ## Source text and parsing

`ast.parse` on a Python string either yields a `Module` tree or raises
`SyntaxError`.  A source string is modelled as its raw text together with
that parse outcome. -/

/-- Outcome of `ast.parse` on a source string. -/
inductive ParseResult where
  | ok (tree : PyNode)
  | syntaxErr (msg : String)

/-- A Python source string: the literal text plus what `ast.parse` does on
it.  Functions that only write or concatenate the text use `raw`; the two
AST inspections in `manim_runner.py` use `parsed`. -/
structure SourceText where
  raw : String
  parsed : ParseResult

/-! ## `ManimRunner.extract_scene_name` (`src/teachme/utils/manim_runner.py:53-70`) -/

/-- The recognized scene base classes (`manim_runner.py:62`). -/
def validSceneClasses : List String := ["Scene", "MovingCameraScene", "ThreeDScene"]

/-- One base expression qualifies when it is a plain `Name` whose id is a
recognized scene class, or an `Attribute` whose attribute name is
(`manim_runner.py:62-64`). -/
def baseQualifies : PyNode → Bool
  | PyNode.name id => validSceneClasses.contains id
  | PyNode.attrExpr _ a => validSceneClasses.contains a
  | _ => false

/-- The per-node check of the `extract_scene_name` walk: a `ClassDef` whose
bases contain a qualifying reference yields its name. -/
def sceneClassName : PyNode → Option String
  | PyNode.classDef nm bases _ => if bases.any baseQualifies then some nm else none
  | _ => none

/-- `extract_scene_name(code)`: walk the parsed tree and return the name of
the first class definition inheriting from a recognized scene class; on any
exception (in particular a `SyntaxError` from parsing) return `None`
(`manim_runner.py:69-70` catches every exception). -/
def extract_scene_name : ParseResult → Option String
  | ParseResult.ok tree => (walk tree).findSome? sceneClassName
  | ParseResult.syntaxErr _ => none

/-! ## `ManimRunner.validate_code` (`src/teachme/utils/manim_runner.py:17-51`) -/

/-- Modules whose import is flagged (`manim_runner.py:30,34`). -/
def dangerousImports : List String := ["os", "subprocess", "sys", "shutil"]

/-- Functions whose plain-name call is flagged (`manim_runner.py:40`). -/
def dangerousFunctions : List String := ["open", "exec", "eval", "__import__"]

/-- The diagnostics a single walked node contributes to `dangerous_nodes`:
`Import` contributes one entry per flagged alias, `ImportFrom` one entry
when its module is flagged, and a `Call` of a flagged plain name one entry
(`manim_runner.py:26-41`). -/
def dangerFlags : PyNode → List String
  | PyNode.importStmt names =>
      (names.filter (fun nm => dangerousImports.contains nm)).map
        (fun nm => "Import of \x27" ++ nm ++ "\x27 module")
  | PyNode.importFrom (some m) _ =>
      if dangerousImports.contains m then ["Import from \x27" ++ m ++ "\x27 module"] else []
  | PyNode.importFrom none _ => []
  | PyNode.call (PyNode.name id) _ =>
      if dangerousFunctions.contains id then ["Call to \x27" ++ id ++ "\x27 function"] else []
  | _ => []

/-- `validate_code(code)`: parse, collect `dangerous_nodes` over the walk,
and return `(False, joined message)` when any are found, `(True, None)`
otherwise; a `SyntaxError` yields `(False, "Syntax error: ...")`
(`manim_runner.py:17-51`). -/
def validate_code : ParseResult → Bool × Option String
  | ParseResult.ok tree =>
      let dangerous_nodes := (walk tree).flatMap dangerFlags
      if dangerous_nodes.isEmpty then (true, none)
      else (false, some ("Potentially dangerous operations detected: "
                          ++ String.intercalate ", " dangerous_nodes))
  | ParseResult.syntaxErr e => (false, some ("Syntax error: " ++ e))

/-! ## `ManimRunner.render_animation` (`src/teachme/utils/manim_runner.py:72-141`)

The manim subprocess stage (temporary directory, command construction,
timeout, artifact discovery) is an external collaborator; its outcome for a
given invocation is an oracle value of type `RenderTriple`.  The pipeline
code before that stage — the `validate_code` gate at lines 81-84 — is
translated directly. -/

/-- The `(success, video_path, error_message)` triple returned by
`render_animation`. -/
structure RenderTriple where
  success : Bool
  video_path : Option String
  error_msg : Option String

/-- `render_animation` with instrumentation: the boolean records whether
control reached the subprocess stage (i.e. whether the manim subprocess was
launched).  When `validate_code` rejects the code, the function returns
`(False, None, error_msg)` without reaching the subprocess
(`manim_runner.py:81-84`). -/
def render_animation_t (subprocessOutcome : RenderTriple) (code : SourceText) :
    RenderTriple × Bool :=
  let v := validate_code code.parsed
  if v.1 then (subprocessOutcome, true)
  else ({ success := false, video_path := none, error_msg := v.2 }, false)

/-- `render_animation` as the loop observes it: just the returned triple. -/
def render_animation (subprocessOutcome : RenderTriple) (code : SourceText) : RenderTriple :=
  (render_animation_t subprocessOutcome code).1

/-! ## Policy constants (`src/teachme/config.py`) -/

namespace RenderConfig

/-- `RenderConfig.MAX_RETRY_ATTEMPTS` (`config.py:10`). -/
def MAX_RETRY_ATTEMPTS : Nat := 5

end RenderConfig

namespace AnimationConfig

/-- `AnimationConfig.MAX_FILENAME_LENGTH` (`config.py:66`). -/
def MAX_FILENAME_LENGTH : Nat := 50

end AnimationConfig

/-! ## Data model (`src/teachme/models/schemas.py`) -/

/-- `ManimScriptResponse` (`schemas.py:22-29`).  `estimated_duration` is a
positive float on which the pipeline performs no arithmetic — it is only
copied into the output and interpolated into the provenance header — so it
is modelled by its decimal rendering. -/
structure ManimScriptResponse where
  filename : String := "scene.py"
  scene_name : String
  description : String
  code : SourceText
  estimated_duration : String
  fix_description : Option String := none

/-- Modelled from the spec: `AnimationRequest` is imported from
`teachme.models.schemas` but its class definition is not among the provided
source files (only its callers are).  Spec section 3: `{user_prompt: text,
use_enhancement: boolean, style: enumerated{light, dark}}`, immutable once
constructed; callers show the field names `user_prompt`, `enhance`
(default true) and `style`. -/
structure AnimationRequest where
  user_prompt : String
  enhance : Bool := true
  style : String := "light"

/-! ## Error taxonomy (`src/teachme/exceptions.py`)

Raised exceptions are modelled as values of one inductive type; the
`from e` cause chain is the `cause` field.  Python interpolates a caught
exception into a wrapping message via `TeachMeError.__str__` (message plus
an optional suggestion line); the model keeps the message part. -/

inductive PipelineError where
  | manimInstallation (message : String)
  | animationRender (message : String) (attempt : Nat) (max_attempts : Nat)
      (scene_name : Option String) (error_output : Option String)
  | llmGeneration (message : String) (prompt_type : Option String)
      (cause : Option PipelineError)
  | scriptValidation (message : String) (validation_type : Option String)

def PipelineError.message : PipelineError → String
  | manimInstallation m => m
  | animationRender m _ _ _ _ => m
  | llmGeneration m _ _ => m
  | scriptValidation m _ => m

/-! ## LLM gateway oracle -/

/-- Outcome of one raw `llm_client.generate` call (external collaborator,
`src/teachme/utils/responses_llm_client.py`): either a schema-parsed
`ManimScriptResponse` together with the response id used for conversation
chaining, or a raised exception (transport or schema failure — the client
surfaces every failure as `LLMGenerationError`). -/
inductive LLMRaw where
  | ok (response : ManimScriptResponse) (response_id : String)
  | raised (e : PipelineError)

/-- The `ScriptValidationError` built at `animation.py:272-276` when no
scene class is found in the generated code. -/
def sceneClassValidationError : PipelineError :=
  PipelineError.scriptValidation "Generated code does not contain a valid Scene class"
    (some "scene_class")

/-- `_call_llm_for_script` (`animation.py:244-291`): run the LLM call,
extract the scene name from the returned code, fail with a validation
error when none is found, overwrite the declared `scene_name` with the
extracted one when they differ; every exception escaping the body —
including the raw call's own and the `ScriptValidationError` — is wrapped
into `LLMGenerationError(f"Failed to {error_context}: {e}")`. -/
def call_llm_for_script (raw : LLMRaw) (error_context : String) :
    Except PipelineError (ManimScriptResponse × String) :=
  match raw with
  | LLMRaw.raised e =>
      Except.error (PipelineError.llmGeneration
        ("Failed to " ++ error_context ++ ": " ++ e.message) (some error_context) (some e))
  | LLMRaw.ok response response_id =>
      match extract_scene_name response.code.parsed with
      | none =>
          Except.error (PipelineError.llmGeneration
            ("Failed to " ++ error_context ++ ": " ++ sceneClassValidationError.message)
            (some error_context) (some sceneClassValidationError))
      | some extracted_scene =>
          let response :=
            if extracted_scene ≠ response.scene_name then
              { response with scene_name := extracted_scene }
            else response
          Except.ok (response, response_id)

/-- Python `a or b` for strings: `a` when it is truthy (non-empty),
otherwise `b`. -/
def pyOr (a b : String) : String := if a = "" then b else a

/-- `_review_manim_script` (`animation.py:205-231`): attempt the review
call; on success return its result, on any exception fall back to the
original script with `response_id = previous_response_id or ""` so that
chaining can continue. -/
def review_manim_script (raw : LLMRaw) (script_response : ManimScriptResponse)
    (previous_response_id : String) : ManimScriptResponse × String :=
  match call_llm_for_script raw "review Manim script" with
  | Except.ok r => r
  | Except.error _ => (script_response, pyOr previous_response_id "")

/-! ## Artifact archiver (`animation.py:293-347`) -/

/-- `re.sub(r'[^\w\s-]', '', prompt.lower())` followed by
`re.sub(r'\s+', '_', ·.strip())`: lower-case, drop characters that are not
word characters, whitespace or hyphens, then collapse each whitespace run
to a single underscore (ASCII reading of the regex classes). -/
def cleanPrompt (prompt : String) : String :=
  let kept := String.mk (prompt.toLower.data.filter fun c =>
    c.isAlphanum || c = '_' || c.isWhitespace || c = '-')
  String.intercalate "_" ((kept.split fun c => c.isWhitespace).filter (fun s => s ≠ ""))

/-- `_generate_script_filename` (`animation.py:293-313`); `timestamp` is
the oracle rendering of `datetime.now().strftime(TIMESTAMP_FORMAT)`. -/
def generate_script_filename (timestamp : String) (prompt : String)
    (scene_name : String) (attempt : Nat) : String :=
  let clean_prompt := cleanPrompt prompt
  let clean_prompt :=
    if AnimationConfig.MAX_FILENAME_LENGTH < clean_prompt.length then
      (clean_prompt.take AnimationConfig.MAX_FILENAME_LENGTH).dropRightWhile (· = '_')
    else clean_prompt
  let attempt_suffix := if 1 < attempt then "_attempt" ++ toString attempt else ""
  timestamp ++ "_" ++ clean_prompt ++ "_" ++ scene_name ++ attempt_suffix ++ ".py"

/-- The provenance header built at `animation.py:322-332`.  Note the
denominator of the attempt marker is the literal digit 3 in the source
(`Attempt: {attempt}/3`), not `RenderConfig.MAX_RETRY_ATTEMPTS`.  `now` is
the oracle rendering of `datetime.now().strftime("%Y-%m-%d %H:%M:%S")`. -/
def script_header (now : String) (script_response : ManimScriptResponse)
    (prompt : String) (attempt : Nat) : String :=
  "\"\"\"\nManim Script: " ++ script_response.scene_name
    ++ "\nGenerated: " ++ now
    ++ "\nPrompt: " ++ prompt
    ++ "\nScene: " ++ script_response.scene_name
    ++ "\nDescription: " ++ script_response.description
    ++ "\nDuration: " ++ script_response.estimated_duration ++ "s"
    ++ "\nAttempt: " ++ toString attempt ++ "/3\n\"\"\"\n\n"

/-- The full content `_save_successful_script` writes: header followed by
the script source (`animation.py:334-335`). -/
def saved_script_content (now : String) (script_response : ManimScriptResponse)
    (prompt : String) (attempt : Nat) : String :=
  script_header now script_response prompt attempt ++ script_response.code.raw

/-- `_save_successful_script` (`animation.py:315-347`): build the filename
and path under the scripts directory and write header plus code; the write
is the filesystem oracle `io_ok`, and any exception during the body is
caught, leaving `None` as the result (lines 344-347). -/
def save_successful_script (io_ok : Bool) (now : String)
    (script_response : ManimScriptResponse) (prompt : String) (attempt : Nat) :
    Option String :=
  let filename := generate_script_filename now prompt script_response.scene_name attempt
  let script_path := "scripts/" ++ filename
  if io_ok then some script_path else none

/-! ## The generate-render-repair loop (`animation.py:89-157`) -/

/-- The external collaborators of one pipeline invocation, as oracles:
the raw LLM outcomes of the generation, review and per-attempt repair
calls, the manim subprocess outcome at each attempt, the installation
check, the filesystem write and the clock. -/
structure Env where
  manimInstalled : Bool := true
  generateRaw : LLMRaw
  reviewRaw : LLMRaw
  fixRaw : Nat → LLMRaw
  subprocessAt : Nat → RenderTriple
  saveOk : Bool := true
  now : String := ""

/-- Observable interactions of one loop execution: each invocation of
`render_animation` (with the script rendered, the triple returned and
whether the manim subprocess was actually launched), each repair call
(with the continuation id passed as `previous_response_id`), and the
archive step. -/
inductive Event where
  | renderCall (attempt : Nat) (script : ManimScriptResponse)
      (outcome : RenderTriple) (subprocessRan : Bool)
  | fixCall (attempt : Nat) (previous_response_id : String)
  | saveCall (attempt : Nat)

def countRenderCalls (evs : List Event) : Nat :=
  evs.countP fun ev => match ev with | Event.renderCall _ _ _ _ => true | _ => false

def countFixCalls (evs : List Event) : Nat :=
  evs.countP fun ev => match ev with | Event.fixCall _ _ => true | _ => false

/-- The `for attempt in range(1, max_attempts + 1)` body of
`_generate_and_render_with_retry` (`animation.py:110-157`) as a fuel
recursion; at every call `fuel = max_attempts - attempt + 1`, so fuel 0 is
the `for` loop falling through — the line the source marks "Should never
reach here", raising `AnimationRenderError` with its constructor defaults
`attempt=1, max_attempts=5`.  On success the result carries the final
script, the video path and the archived-script path
(`last_saved_script_path`). -/
def retryLoopAux (env : Env) (user_prompt : String) (max_attempts : Nat) :
    Nat → Nat → ManimScriptResponse → String →
    Except PipelineError (ManimScriptResponse × Option String × Option String) × List Event
  | 0, _, _, _ =>
      (Except.error (PipelineError.animationRender "Unexpected error in retry loop" 1 5 none none),
       [])
  | fuel + 1, attempt, script_response, current_response_id =>
      let rt := render_animation_t (env.subprocessAt attempt) script_response.code
      let renderEv := Event.renderCall attempt script_response rt.1 rt.2
      if rt.1.success then
        let saved := save_successful_script env.saveOk env.now script_response user_prompt attempt
        (Except.ok (script_response, rt.1.video_path, saved), [renderEv, Event.saveCall attempt])
      else if attempt = max_attempts then
        (Except.error (PipelineError.animationRender
            ("Animation rendering failed after " ++ toString max_attempts ++ " attempts")
            attempt max_attempts (some script_response.scene_name) rt.1.error_msg),
         [renderEv])
      else
        match call_llm_for_script (env.fixRaw attempt) "fix Manim script" with
        | Except.ok (fixed, rid) =>
            let next := retryLoopAux env user_prompt max_attempts fuel (attempt + 1) fixed
              (pyOr rid current_response_id)
            (next.1, renderEv :: Event.fixCall attempt current_response_id :: next.2)
        | Except.error fix_error =>
            (Except.error (PipelineError.llmGeneration
                ("Failed to fix script on attempt " ++ toString attempt ++ ": "
                  ++ fix_error.message)
                (some "error_correction") (some fix_error)),
             [renderEv, Event.fixCall attempt current_response_id])

/-- `_generate_and_render_with_retry` (`animation.py:89-157`): initial
generation, review with fallback and `or`-guarded chaining update
(lines 104-108), then the retry loop with
`max_attempts = RenderConfig.MAX_RETRY_ATTEMPTS`.  The prompt-construction
step (lines 96-102) only chooses the text sent with the generation call
and is absorbed into the `generateRaw` oracle. -/
def generate_and_render_with_retry (env : Env) (request : AnimationRequest) :
    Except PipelineError (ManimScriptResponse × Option String × Option String) × List Event :=
  match call_llm_for_script env.generateRaw "generate Manim script" with
  | Except.error e => (Except.error e, [])
  | Except.ok (script0, rid0) =>
      let reviewed := review_manim_script env.reviewRaw script0 rid0
      let script1 := reviewed.1
      let rid1 := pyOr reviewed.2 rid0
      retryLoopAux env request.user_prompt RenderConfig.MAX_RETRY_ATTEMPTS
        RenderConfig.MAX_RETRY_ATTEMPTS 1 script1 rid1

/-- The success payload `generate` returns (`animation.py:66-79`): the
`AnimationOutput` fields plus the optional `script_path`. -/
structure GenerateResult where
  video_path : String
  alt_text : String
  scene_name : String
  duration : String
  script_path : Option String

/-- `generate` (`animation.py:45-87`): installation precondition, the
loop, result assembly.  `except (ManimInstallationError,
AnimationRenderError): raise` re-raises those unchanged; any other
exception — in particular `LLMGenerationError` from the generation or
repair steps — is wrapped into
`AnimationRenderError(f"Animation generation failed: {e}")` with the
constructor defaults `attempt=1, max_attempts=5`.  Python renders the
video path with `str`, which maps `None` to `"None"`. -/
def generateAgent (env : Env) (request : AnimationRequest) :
    Except PipelineError GenerateResult × List Event :=
  if !env.manimInstalled then
    (Except.error (PipelineError.manimInstallation "Manim installation check failed"), [])
  else
    match generate_and_render_with_retry env request with
    | (Except.error e, evs) =>
        (match e with
         | PipelineError.manimInstallation _ => (Except.error e, evs)
         | PipelineError.animationRender m a ma sn eo =>
             (Except.error (PipelineError.animationRender m a ma sn eo), evs)
         | e =>
             (Except.error (PipelineError.animationRender
               ("Animation generation failed: " ++ e.message) 1 5 none none), evs))
    | (Except.ok (script_response, video_path, saved), evs) =>
        (Except.ok
          { video_path := (match video_path with | some p => p | none => "None")
            alt_text := script_response.description
            scene_name := script_response.scene_name
            duration := script_response.estimated_duration
            script_path := saved }, evs)

/-! ## Helper lemmas about `List.findSome?` -/

theorem findSomeEqNone {α β : Type} (f : α → Option β) :
    ∀ l : List α, (∀ x ∈ l, f x = none) → l.findSome? f = none := by
  intro l
  induction l with
  | nil => intro _; rfl
  | cons a as ih =>
    intro h
    have ha := h a (List.mem_cons_self a as)
    rw [List.findSome?_cons, ha]
    exact ih fun x hx => h x (List.mem_cons_of_mem a hx)

theorem findSomeEqSomeMem {α β : Type} (f : α → Option β) :
    ∀ (l : List α) (b : β), l.findSome? f = some b → ∃ x ∈ l, f x = some b := by
  intro l
  induction l with
  | nil => intro b h; simp [List.findSome?] at h
  | cons a as ih =>
    intro b h
    rw [List.findSome?_cons] at h
    cases hfa : f a with
    | some v =>
      rw [hfa] at h
      simp at h
      exact ⟨a, List.mem_cons_self a as, by rw [hfa, h]⟩
    | none =>
      rw [hfa] at h
      simp at h
      rcases ih b h with ⟨x, hx, hfx⟩
      exact ⟨x, List.mem_cons_of_mem a hx, hfx⟩

theorem findSomeNeNoneOfMem {α β : Type} (f : α → Option β) :
    ∀ (l : List α) (x : α) (b : β), x ∈ l → f x = some b → l.findSome? f ≠ none := by
  intro l
  induction l with
  | nil => intro x b hx; simp at hx
  | cons a as ih =>
    intro x b hx hfx h
    rw [List.findSome?_cons] at h
    rcases List.mem_cons.mp hx with rfl | hx'
    · rw [hfx] at h; exact Option.noConfusion h
    · cases hfa : f a with
      | some v => rw [hfa] at h; exact Option.noConfusion h
      | none => rw [hfa] at h; exact ih x b hx' hfx h

/-! ## Claims about the script validator -/

/-- C4: a source whose parse tree contains exactly one class definition
with a recognized scene base yields that class's name; a source with no
qualifying class definition yields nothing. -/
theorem C4_extract_scene_name (tree : PyNode) (nm : String) :
    (tree.subnodes.filterMap sceneClassName = [nm] →
      extract_scene_name (ParseResult.ok tree) = some nm) ∧
    (tree.subnodes.filterMap sceneClassName = [] →
      extract_scene_name (ParseResult.ok tree) = none) := by
  constructor
  · intro h
    have hnm : nm ∈ tree.subnodes.filterMap sceneClassName := by rw [h]; exact List.mem_singleton.mpr rfl
    rcases List.mem_filterMap.mp hnm with ⟨x, hx, hfx⟩
    have hxwalk : x ∈ walk tree := mem_walk.mpr hx
    have hne : (walk tree).findSome? sceneClassName ≠ none :=
      findSomeNeNoneOfMem sceneClassName (walk tree) x nm hxwalk hfx
    cases hfind : (walk tree).findSome? sceneClassName with
    | none => exact absurd hfind hne
    | some v =>
      rcases findSomeEqSomeMem sceneClassName (walk tree) v hfind with ⟨y, hy, hfy⟩
      have hv : v ∈ tree.subnodes.filterMap sceneClassName :=
        List.mem_filterMap.mpr ⟨y, mem_walk.mp hy, hfy⟩
      rw [h] at hv
      have : v = nm := List.mem_singleton.mp hv
      subst this
      exact hfind
  · intro h
    have hall : ∀ x ∈ walk tree, sceneClassName x = none := by
      intro x hx
      cases hfx : sceneClassName x with
      | none => rfl
      | some v =>
        exfalso
        have hv : v ∈ tree.subnodes.filterMap sceneClassName :=
          List.mem_filterMap.mpr ⟨x, mem_walk.mp hx, hfx⟩
        rw [h] at hv
        exact absurd hv (List.not_mem_nil v)
    exact findSomeEqNone sceneClassName (walk tree) hall

/-- C5 counterexample: on an unparseable source the validator does not
propagate a parse failure — it returns the same no-match result `None`
that it returns for a parseable source with no scene class. -/
theorem C5_counterexample :
    extract_scene_name (ParseResult.syntaxErr "invalid syntax (line 1)") = none ∧
    extract_scene_name (ParseResult.ok (module [])) = none :=
  ⟨rfl, rfl⟩

/-- C5 amended: on an unparseable source `extract_scene_name` swallows the
`SyntaxError` and returns `None`; the calling generation step
(`_call_llm_for_script`) then raises a scene-class validation error
(wrapped, like every failure escaping that body, into
`LLMGenerationError`) instead of proceeding to render. -/
theorem C5_unparseable_fails_validation (response : ManimScriptResponse)
    (response_id : String) (msg : String) (error_context : String)
    (h : response.code.parsed = ParseResult.syntaxErr msg) :
    extract_scene_name response.code.parsed = none ∧
    call_llm_for_script (LLMRaw.ok response response_id) error_context =
      Except.error (PipelineError.llmGeneration
        ("Failed to " ++ error_context ++ ": " ++ sceneClassValidationError.message)
        (some error_context) (some sceneClassValidationError)) := by
  have hext : extract_scene_name response.code.parsed = none := by
    rw [h]; rfl
  refine ⟨hext, ?_⟩
  rw [call_llm_for_script, hext]

/-- C6 part 1: whenever the validator extracts a scene name from the
returned code, `_call_llm_for_script` succeeds with the extracted name
installed as the authoritative `scene_name` (overwriting the declared one
when they differ, leaving it in place when equal). -/
theorem call_llm_installs_extracted_name (response : ManimScriptResponse)
    (response_id : String) (error_context : String) (extracted : String)
    (h : extract_scene_name response.code.parsed = some extracted) :
    call_llm_for_script (LLMRaw.ok response response_id) error_context =
      Except.ok ({ response with scene_name := extracted }, response_id) := by
  rw [call_llm_for_script, h]
  by_cases hne : extracted = response.scene_name
  · simp [hne]
  · simp [hne]

/-- Every script produced by `_call_llm_for_script` carries the scene name
the validator extracts from its own code. -/
theorem call_llm_ok_scene (raw : LLMRaw) (error_context : String)
    (r : ManimScriptResponse) (rid : String)
    (h : call_llm_for_script raw error_context = Except.ok (r, rid)) :
    extract_scene_name r.code.parsed = some r.scene_name := by
  cases raw with
  | raised e => simp [call_llm_for_script] at h
  | ok response response_id =>
    rw [call_llm_for_script] at h
    cases hext : extract_scene_name response.code.parsed with
    | none => rw [hext] at h; exact absurd h (by simp)
    | some extracted =>
      rw [hext] at h
      by_cases hne : extracted = response.scene_name
      · simp [hne] at h
        obtain ⟨h1, h2⟩ := h
        subst h1
        rw [hext, hne]
      · simp [hne] at h
        obtain ⟨h1, h2⟩ := h
        subst h1
        simpa using hext

/-! ## Claims about the safety gate -/

/-- A parse tree uses a dangerous operation when some node of it
contributes a diagnostic: an `import` of one of os/subprocess/sys/shutil,
a `from`-import of one of those modules, or a plain-name call of one of
open/exec/eval/__import__. -/
def usesDangerousOperation (tree : PyNode) : Prop :=
  ∃ x ∈ tree.subnodes, dangerFlags x ≠ []

/-- `validate_code` rejects every source using a dangerous operation, with
the diagnostic listing the collected flags. -/
theorem validate_code_rejects (tree : PyNode) (h : usesDangerousOperation tree) :
    validate_code (ParseResult.ok tree) =
      (false, some ("Potentially dangerous operations detected: "
        ++ String.intercalate ", " ((walk tree).flatMap dangerFlags))) := by
  rcases h with ⟨x, hx, hfx⟩
  have hxwalk : x ∈ walk tree := mem_walk.mpr hx
  have hne : (walk tree).flatMap dangerFlags ≠ [] := by
    cases hflag : dangerFlags x with
    | nil => exact absurd hflag hfx
    | cons d ds =>
      intro hempty
      have hd : d ∈ (walk tree).flatMap dangerFlags :=
        List.mem_flatMap.mpr ⟨x, hxwalk, by rw [hflag]; exact List.mem_cons_self d ds⟩
      rw [hempty] at hd
      exact absurd hd (List.not_mem_nil d)
  rw [validate_code]
  have hemp : ((walk tree).flatMap dangerFlags).isEmpty = false := by
    cases hfm : (walk tree).flatMap dangerFlags with
    | nil => exact absurd hfm hne
    | cons d ds => rfl
  simp only [hemp]
  rfl

/-- C10 part 1: for any subprocess oracle, `render_animation` on a source
using a dangerous operation returns the ordinary failure triple
`(False, None, diagnostic)` without launching the manim subprocess. -/
theorem render_rejects_dangerous (subprocessOutcome : RenderTriple)
    (code : SourceText) (tree : PyNode)
    (hp : code.parsed = ParseResult.ok tree) (h : usesDangerousOperation tree) :
    render_animation_t subprocessOutcome code =
      ({ success := false, video_path := none,
         error_msg := some ("Potentially dangerous operations detected: "
           ++ String.intercalate ", " ((walk tree).flatMap dangerFlags)) }, false) := by
  rw [render_animation_t, hp, validate_code_rejects tree h]
  simp

/-- C9: the provenance header records the attempt number over a
denominator that is the hard-coded digit 3
(`animation.py:329`, `Attempt: {attempt}/3`), while the loop's budget
`RenderConfig.MAX_RETRY_ATTEMPTS` is 5 — the recorded budget is not the
policy constant. -/
theorem C9_header_budget_hardcoded :
    RenderConfig.MAX_RETRY_ATTEMPTS = 5 ∧ (3 : Nat) ≠ RenderConfig.MAX_RETRY_ATTEMPTS ∧
    (∀ (now : String) (script_response : ManimScriptResponse)
       (prompt : String) (attempt : Nat), ∃ pre : String,
      script_header now script_response prompt attempt
        = pre ++ ("Attempt: " ++ toString attempt ++ "/3\n\"\"\"\n\n")) := by
  refine ⟨rfl, by decide, ?_⟩
  intro now script_response prompt attempt
  refine ⟨"\"\"\"\nManim Script: " ++ script_response.scene_name
    ++ "\nGenerated: " ++ now
    ++ "\nPrompt: " ++ prompt
    ++ "\nScene: " ++ script_response.scene_name
    ++ "\nDescription: " ++ script_response.description
    ++ "\nDuration: " ++ script_response.estimated_duration ++ "s"
    ++ "\n", ?_⟩
  rw [script_header]
  simp only [String.append_assoc]
  rfl

/-! ## Lemmas about the retry loop -/

theorem pyOr_ne_empty (a b : String) (hb : b ≠ "") : pyOr a b ≠ "" := by
  rw [pyOr]
  by_cases ha : a = "" <;> simp [ha, hb]

/-- When the subprocess stage fails, `render_animation` fails no matter
which script is rendered (whether or not validation passed). -/
theorem render_fail_of_subprocess_fail (sub : RenderTriple) (code : SourceText)
    (h : sub.success = false) : (render_animation_t sub code).1.success = false := by
  rw [render_animation_t]
  by_cases hv : (validate_code code.parsed).1 <;> simp [hv, h]

/-- Budget bound: starting from `attempt` with `fuel = maxA - attempt + 1`
remaining iterations, the loop performs at most `fuel` render invocations
and at most `fuel - 1` repair calls. -/
theorem retryLoopAux_counts (env : Env) (up : String) (maxA : Nat) :
    ∀ (fuel attempt : Nat) (s : ManimScriptResponse) (rid : String),
      attempt + fuel = maxA + 1 →
      countRenderCalls (retryLoopAux env up maxA fuel attempt s rid).2 ≤ fuel ∧
      countFixCalls (retryLoopAux env up maxA fuel attempt s rid).2 ≤ fuel - 1 := by
  intro fuel
  induction fuel with
  | zero =>
    intro attempt s rid _
    simp [retryLoopAux, countRenderCalls, countFixCalls]
  | succ fuel ih =>
    intro attempt s rid h
    cases hs : (render_animation_t (env.subprocessAt attempt) s.code).1.success with
    | true =>
      simp [retryLoopAux, hs, countRenderCalls, countFixCalls, List.countP_cons]
    | false =>
      by_cases ha : attempt = maxA
      · subst ha
        simp [retryLoopAux, hs, countRenderCalls, countFixCalls, List.countP_cons]
      · have hfuel : 1 ≤ fuel := by omega
        cases hf : call_llm_for_script (env.fixRaw attempt) "fix Manim script" with
        | error e =>
          simp [retryLoopAux, hs, ha, hf, countRenderCalls, countFixCalls, List.countP_cons]
          omega
        | ok pr =>
          obtain ⟨fixed, rid2⟩ := pr
          have ihc := ih (attempt + 1) fixed (pyOr rid2 rid) (by omega)
          rw [countRenderCalls, countFixCalls] at ihc ⊢
          simp [retryLoopAux, hs, ha, hf, List.countP_cons]
          omega

/-- The first interaction of every loop run with fuel remaining is the
render invocation at the entry attempt number, on the entry script. -/
theorem retryLoopAux_first_event (env : Env) (up : String) (maxA fuel attempt : Nat)
    (s : ManimScriptResponse) (rid : String) :
    ∃ t ran, (retryLoopAux env up maxA (fuel + 1) attempt s rid).2.head? =
      some (Event.renderCall attempt s t ran) := by
  refine ⟨(render_animation_t (env.subprocessAt attempt) s.code).1,
          (render_animation_t (env.subprocessAt attempt) s.code).2, ?_⟩
  cases hs : (render_animation_t (env.subprocessAt attempt) s.code).1.success with
  | true => simp [retryLoopAux, hs]
  | false =>
    by_cases ha : attempt = maxA
    · subst ha
      simp [retryLoopAux, hs]
    · cases hf : call_llm_for_script (env.fixRaw attempt) "fix Manim script" with
      | ok pr =>
        obtain ⟨fixed, rid2⟩ := pr
        simp [retryLoopAux, hs, ha, hf]
      | error e => simp [retryLoopAux, hs, ha, hf]

/-- Every render event in the trace records exactly the triple and
subprocess flag that `render_animation` produces for the script rendered
at that attempt. -/
theorem retryLoopAux_render_outcome (env : Env) (up : String) (maxA : Nat) :
    ∀ (fuel attempt : Nat) (s : ManimScriptResponse) (rid : String)
      (n : Nat) (s' : ManimScriptResponse) (t : RenderTriple) (ran : Bool),
      Event.renderCall n s' t ran ∈ (retryLoopAux env up maxA fuel attempt s rid).2 →
      (t, ran) = render_animation_t (env.subprocessAt n) s'.code := by
  intro fuel
  induction fuel with
  | zero =>
    intro attempt s rid n s' t ran hmem
    simp [retryLoopAux] at hmem
  | succ fuel ih =>
    intro attempt s rid n s' t ran hmem
    cases hs : (render_animation_t (env.subprocessAt attempt) s.code).1.success with
    | true =>
      simp [retryLoopAux, hs] at hmem
      obtain ⟨rfl, rfl, rfl, rfl⟩ := hmem
      simp
    | false =>
      by_cases ha : attempt = maxA
      · subst ha
        simp [retryLoopAux, hs] at hmem
        obtain ⟨rfl, rfl, rfl, rfl⟩ := hmem
        simp
      · cases hf : call_llm_for_script (env.fixRaw attempt) "fix Manim script" with
        | error e =>
          simp [retryLoopAux, hs, ha, hf] at hmem
          obtain ⟨rfl, rfl, rfl, rfl⟩ := hmem
          simp
        | ok pr =>
          obtain ⟨fixed, rid2⟩ := pr
          simp [retryLoopAux, hs, ha, hf] at hmem
          rcases hmem with ⟨rfl, rfl, rfl, rfl⟩ | hrec
          · simp
          · exact ih (attempt + 1) fixed (pyOr rid2 rid) n s' t ran hrec

/-- The scene-name/code consistency `_call_llm_for_script` establishes. -/
def sceneNameConsistent (s : ManimScriptResponse) : Prop :=
  extract_scene_name s.code.parsed = some s.scene_name

/-- Every script the loop ever hands to the renderer satisfies the
validator consistency invariant, provided the entry script does —
repair steps re-establish it through `_call_llm_for_script`. -/
theorem retryLoopAux_render_scripts (env : Env) (up : String) (maxA : Nat) :
    ∀ (fuel attempt : Nat) (s : ManimScriptResponse) (rid : String),
      sceneNameConsistent s →
      ∀ (n : Nat) (s' : ManimScriptResponse) (t : RenderTriple) (ran : Bool),
        Event.renderCall n s' t ran ∈ (retryLoopAux env up maxA fuel attempt s rid).2 →
        sceneNameConsistent s' := by
  intro fuel
  induction fuel with
  | zero =>
    intro attempt s rid hc n s' t ran hmem
    simp [retryLoopAux] at hmem
  | succ fuel ih =>
    intro attempt s rid hc n s' t ran hmem
    cases hs : (render_animation_t (env.subprocessAt attempt) s.code).1.success with
    | true =>
      simp [retryLoopAux, hs] at hmem
      obtain ⟨rfl, rfl, rfl, rfl⟩ := hmem
      exact hc
    | false =>
      by_cases ha : attempt = maxA
      · subst ha
        simp [retryLoopAux, hs] at hmem
        obtain ⟨rfl, rfl, rfl, rfl⟩ := hmem
        exact hc
      · cases hf : call_llm_for_script (env.fixRaw attempt) "fix Manim script" with
        | error e =>
          simp [retryLoopAux, hs, ha, hf] at hmem
          obtain ⟨rfl, rfl, rfl, rfl⟩ := hmem
          exact hc
        | ok pr =>
          obtain ⟨fixed, rid2⟩ := pr
          simp [retryLoopAux, hs, ha, hf] at hmem
          rcases hmem with ⟨rfl, rfl, rfl, rfl⟩ | hrec
          · exact hc
          · exact ih (attempt + 1) fixed (pyOr rid2 rid)
              (call_llm_ok_scene (env.fixRaw attempt) "fix Manim script" fixed rid2 hf)
              n s' t ran hrec

/-- Exhaustion: when every subprocess outcome is a failure and every repair
call succeeds, the loop runs through all remaining attempts and terminates
with the `AnimationRenderError` carrying `attempt = max_attempts` and the
diagnostic of the final render invocation, having performed exactly `fuel`
renders and `fuel - 1` repair calls. -/
theorem retryLoopAux_allFail (env : Env) (up : String) (maxA : Nat)
    (hfail : ∀ n, (env.subprocessAt n).success = false)
    (hfix : ∀ n, ∃ p, call_llm_for_script (env.fixRaw n) "fix Manim script" = Except.ok p) :
    ∀ (fuel attempt : Nat) (s : ManimScriptResponse) (rid : String),
      attempt + fuel = maxA + 1 → 1 ≤ fuel →
      ∃ (sl : ManimScriptResponse) (t : RenderTriple) (ran : Bool),
        (retryLoopAux env up maxA fuel attempt s rid).1 =
          Except.error (PipelineError.animationRender
            ("Animation rendering failed after " ++ toString maxA ++ " attempts")
            maxA maxA (some sl.scene_name) t.error_msg) ∧
        Event.renderCall maxA sl t ran ∈ (retryLoopAux env up maxA fuel attempt s rid).2 ∧
        t = (render_animation_t (env.subprocessAt maxA) sl.code).1 ∧
        countRenderCalls (retryLoopAux env up maxA fuel attempt s rid).2 = fuel ∧
        countFixCalls (retryLoopAux env up maxA fuel attempt s rid).2 = fuel - 1 := by
  intro fuel
  induction fuel with
  | zero =>
    intro attempt s rid hinv hge
    omega
  | succ fuel ih =>
    intro attempt s rid hinv hge
    have hs : (render_animation_t (env.subprocessAt attempt) s.code).1.success = false :=
      render_fail_of_subprocess_fail _ _ (hfail attempt)
    by_cases ha : attempt = maxA
    · subst ha
      refine ⟨s, (render_animation_t (env.subprocessAt attempt) s.code).1,
        (render_animation_t (env.subprocessAt attempt) s.code).2, ?_⟩
      have hfuel0 : fuel = 0 := by omega
      subst hfuel0
      simp [retryLoopAux, hs, countRenderCalls, countFixCalls, List.countP_cons]
    · have hfuel : 1 ≤ fuel := by omega
      obtain ⟨⟨fixed, rid2⟩, hok⟩ := hfix attempt
      obtain ⟨sl, t, ran, h1, h2, h3, h4, h5⟩ :=
        ih (attempt + 1) fixed (pyOr rid2 rid) (by omega) hfuel
      refine ⟨sl, t, ran, ?_, ?_, h3, ?_, ?_⟩
      · simp [retryLoopAux, hs, ha, hok]
        exact h1
      · simp [retryLoopAux, hs, ha, hok]
        exact Or.inr h2
      · rw [countRenderCalls] at h4 ⊢
        simp [retryLoopAux, hs, ha, hok, List.countP_cons, h4]
      · rw [countFixCalls] at h5 ⊢
        simp [retryLoopAux, hs, ha, hok, List.countP_cons, h5]
        omega

/-- Repair failure: when renders fail up to attempt `k < max_attempts`,
repair calls before `k` succeed and the repair call after attempt `k`
raises, the loop aborts with exactly the wrapped `LLMGenerationError` of
`animation.py:150-154`, having performed exactly the renders and repair
calls up to `k` — no render attempt is ever numbered beyond `k` and the
failing repair call is not retried. -/
theorem retryLoopAux_fixFail (env : Env) (up : String) (maxA k : Nat) (e : PipelineError)
    (hkmax : k < maxA)
    (hfail : ∀ n, n ≤ k → (env.subprocessAt n).success = false)
    (hfixok : ∀ n, n < k → ∃ p, call_llm_for_script (env.fixRaw n) "fix Manim script" = Except.ok p)
    (hfixerr : call_llm_for_script (env.fixRaw k) "fix Manim script" = Except.error e) :
    ∀ (fuel attempt : Nat) (s : ManimScriptResponse) (rid : String),
      attempt + fuel = maxA + 1 → attempt ≤ k →
      (retryLoopAux env up maxA fuel attempt s rid).1 =
        Except.error (PipelineError.llmGeneration
          ("Failed to fix script on attempt " ++ toString k ++ ": " ++ e.message)
          (some "error_correction") (some e)) ∧
      countRenderCalls (retryLoopAux env up maxA fuel attempt s rid).2 = k + 1 - attempt ∧
      countFixCalls (retryLoopAux env up maxA fuel attempt s rid).2 = k + 1 - attempt ∧
      (∀ n s' t ran, Event.renderCall n s' t ran ∈ (retryLoopAux env up maxA fuel attempt s rid).2 → n ≤ k) ∧
      (∀ n p, Event.fixCall n p ∈ (retryLoopAux env up maxA fuel attempt s rid).2 → n ≤ k) := by
  intro fuel
  induction fuel with
  | zero =>
    intro attempt s rid hinv hak
    omega
  | succ fuel ih =>
    intro attempt s rid hinv hak
    have hs : (render_animation_t (env.subprocessAt attempt) s.code).1.success = false :=
      render_fail_of_subprocess_fail _ _ (hfail attempt hak)
    have ha : attempt ≠ maxA := by omega
    by_cases hattk : attempt = k
    · subst hattk
      have hevents : (retryLoopAux env up maxA (fuel + 1) attempt s rid).2 =
          [Event.renderCall attempt s (render_animation_t (env.subprocessAt attempt) s.code).1
             (render_animation_t (env.subprocessAt attempt) s.code).2,
           Event.fixCall attempt rid] := by
        simp [retryLoopAux, hs, ha, hfixerr]
      refine ⟨?_, ?_, ?_, ?_, ?_⟩
      · simp [retryLoopAux, hs, ha, hfixerr]
      · rw [hevents, countRenderCalls]
        simp [List.countP_cons]
      · rw [hevents, countFixCalls]
        simp [List.countP_cons]
      · intro n s' t ran hmem
        rw [hevents] at hmem
        simp at hmem
        exact Nat.le_of_eq hmem.1
      · intro n p hmem
        rw [hevents] at hmem
        simp at hmem
        exact Nat.le_of_eq hmem.1
    · have hlt : attempt < k := by omega
      obtain ⟨⟨fixed, rid2⟩, hok⟩ := hfixok attempt hlt
      obtain ⟨h1, h2, h3, h4, h5⟩ := ih (attempt + 1) fixed (pyOr rid2 rid) (by omega) (by omega)
      refine ⟨?_, ?_, ?_, ?_, ?_⟩
      · simp [retryLoopAux, hs, ha, hok]
        exact h1
      · rw [countRenderCalls] at h2 ⊢
        simp [retryLoopAux, hs, ha, hok, List.countP_cons, h2]
        omega
      · rw [countFixCalls] at h3 ⊢
        simp [retryLoopAux, hs, ha, hok, List.countP_cons, h3]
        omega
      · intro n s' t ran hmem
        simp [retryLoopAux, hs, ha, hok] at hmem
        rcases hmem with ⟨rfl, _⟩ | hrec
        · omega
        · exact h4 n s' t ran hrec
      · intro n p hmem
        simp [retryLoopAux, hs, ha, hok] at hmem
        rcases hmem with ⟨rfl, _⟩ | hrec
        · omega
        · exact h5 n p hrec

/-- Continuation chaining invariant: once the loop holds a non-empty
continuation id, every repair call is issued with a non-empty one — the
`or`-guarded update at `animation.py:147` never overwrites it with an
empty id. -/
theorem retryLoopAux_fix_ids_nonempty (env : Env) (up : String) (maxA : Nat) :
    ∀ (fuel attempt : Nat) (s : ManimScriptResponse) (rid : String), rid ≠ "" →
      ∀ (n : Nat) (p : String),
        Event.fixCall n p ∈ (retryLoopAux env up maxA fuel attempt s rid).2 → p ≠ "" := by
  intro fuel
  induction fuel with
  | zero =>
    intro attempt s rid hr n p hmem
    simp [retryLoopAux] at hmem
  | succ fuel ih =>
    intro attempt s rid hr n p hmem
    cases hs : (render_animation_t (env.subprocessAt attempt) s.code).1.success with
    | true => simp [retryLoopAux, hs] at hmem
    | false =>
      by_cases ha : attempt = maxA
      · subst ha
        simp [retryLoopAux, hs] at hmem
      · cases hf : call_llm_for_script (env.fixRaw attempt) "fix Manim script" with
        | error e =>
          simp [retryLoopAux, hs, ha, hf] at hmem
          rw [hmem.2]
          exact hr
        | ok pr =>
          obtain ⟨fixed, rid2⟩ := pr
          simp [retryLoopAux, hs, ha, hf] at hmem
          rcases hmem with ⟨_, rfl⟩ | hrec
          · exact hr
          · exact ih (attempt + 1) fixed (pyOr rid2 rid) (pyOr_ne_empty rid2 rid hr) n p hrec

/-- The repair call issued at the loop's entry attempt number carries
exactly the continuation id the loop entered with, and every repair call
in the trace is numbered at or after the entry attempt. -/
theorem retryLoopAux_first_fix_id (env : Env) (up : String) (maxA : Nat) :
    ∀ (fuel attempt : Nat) (s : ManimScriptResponse) (rid : String),
      (∀ p, Event.fixCall attempt p ∈ (retryLoopAux env up maxA fuel attempt s rid).2 → p = rid) ∧
      (∀ (n : Nat) (p : String),
        Event.fixCall n p ∈ (retryLoopAux env up maxA fuel attempt s rid).2 → attempt ≤ n) := by
  intro fuel
  induction fuel with
  | zero =>
    intro attempt s rid
    constructor <;> intro
    all_goals simp [retryLoopAux]
  | succ fuel ih =>
    intro attempt s rid
    cases hs : (render_animation_t (env.subprocessAt attempt) s.code).1.success with
    | true =>
      constructor
      · intro p hmem
        simp [retryLoopAux, hs] at hmem
      · intro n p hmem
        simp [retryLoopAux, hs] at hmem
    | false =>
      by_cases ha : attempt = maxA
      · subst ha
        constructor
        · intro p hmem
          simp [retryLoopAux, hs] at hmem
        · intro n p hmem
          simp [retryLoopAux, hs] at hmem
      · cases hf : call_llm_for_script (env.fixRaw attempt) "fix Manim script" with
        | error e =>
          constructor
          · intro p hmem
            simp [retryLoopAux, hs, ha, hf] at hmem
            exact hmem
          · intro n p hmem
            simp [retryLoopAux, hs, ha, hf] at hmem
            exact Nat.le_of_eq (hmem.1).symm
        | ok pr =>
          obtain ⟨fixed, rid2⟩ := pr
          have ihn := ih (attempt + 1) fixed (pyOr rid2 rid)
          constructor
          · intro p hmem
            simp [retryLoopAux, hs, ha, hf] at hmem
            rcases hmem with rfl | hrec
            · rfl
            · exact absurd (ihn.2 attempt p hrec) (by omega)
          · intro n p hmem
            simp [retryLoopAux, hs, ha, hf] at hmem
            rcases hmem with ⟨h1, _⟩ | hrec
            · exact Nat.le_of_eq h1.symm
            · exact Nat.le_of_succ_le (ihn.2 n p hrec)

/-- The filesystem oracle only influences the archived-script path: with a
failing write the loop produces the same trace and the same result except
that the saved location is `None`. -/
theorem retryLoopAux_saveOk (env : Env) (up : String) (maxA : Nat) :
    ∀ (fuel attempt : Nat) (s : ManimScriptResponse) (rid : String),
      retryLoopAux { env with saveOk := false } up maxA fuel attempt s rid =
        ((retryLoopAux { env with saveOk := true } up maxA fuel attempt s rid).1.map
           (fun x => (x.1, x.2.1, none)),
         (retryLoopAux { env with saveOk := true } up maxA fuel attempt s rid).2) := by
  intro fuel
  induction fuel with
  | zero =>
    intro attempt s rid
    simp [retryLoopAux, Except.map]
  | succ fuel ih =>
    intro attempt s rid
    cases hs : (render_animation_t (env.subprocessAt attempt) s.code).1.success with
    | true =>
      simp [retryLoopAux, hs, save_successful_script, Except.map]
    | false =>
      by_cases ha : attempt = maxA
      · subst ha
        simp [retryLoopAux, hs, Except.map]
      · cases hf : call_llm_for_script (env.fixRaw attempt) "fix Manim script" with
        | error e =>
          simp [retryLoopAux, hs, ha, hf, Except.map]
        | ok pr =>
          obtain ⟨fixed, rid2⟩ := pr
          have ihn := ih (attempt + 1) fixed (pyOr rid2 rid)
          simp [retryLoopAux, hs, ha, hf]
          constructor
          · rw [ihn]
          · rw [ihn]

/-! ## Claim theorems about the loop -/

/-- C1: every execution of the generate-render-repair loop performs at
most `MAX_RETRY_ATTEMPTS` render attempts and at most
`MAX_RETRY_ATTEMPTS - 1` repair calls; and when the generation call
succeeds, every repair call succeeds and the renderer fails on every
attempt, the loop terminates with the `AnimationRenderError` whose
reported attempt count equals `MAX_RETRY_ATTEMPTS` and whose
`error_output` is the diagnostic of the final render attempt, after
exactly `MAX_RETRY_ATTEMPTS` renders and `MAX_RETRY_ATTEMPTS - 1`
repairs. -/
theorem C1_retry_budget (env : Env) (request : AnimationRequest) :
    countRenderCalls (generate_and_render_with_retry env request).2 ≤
      RenderConfig.MAX_RETRY_ATTEMPTS ∧
    countFixCalls (generate_and_render_with_retry env request).2 ≤
      RenderConfig.MAX_RETRY_ATTEMPTS - 1 ∧
    ((∃ p, call_llm_for_script env.generateRaw "generate Manim script" = Except.ok p) →
     (∀ n, (env.subprocessAt n).success = false) →
     (∀ n, ∃ p, call_llm_for_script (env.fixRaw n) "fix Manim script" = Except.ok p) →
     ∃ (sl : ManimScriptResponse) (t : RenderTriple) (ran : Bool),
       (generate_and_render_with_retry env request).1 =
         Except.error (PipelineError.animationRender
           ("Animation rendering failed after "
             ++ toString RenderConfig.MAX_RETRY_ATTEMPTS ++ " attempts")
           RenderConfig.MAX_RETRY_ATTEMPTS RenderConfig.MAX_RETRY_ATTEMPTS
           (some sl.scene_name) t.error_msg) ∧
       Event.renderCall RenderConfig.MAX_RETRY_ATTEMPTS sl t ran ∈
         (generate_and_render_with_retry env request).2 ∧
       t = (render_animation_t (env.subprocessAt RenderConfig.MAX_RETRY_ATTEMPTS) sl.code).1 ∧
       countRenderCalls (generate_and_render_with_retry env request).2 =
         RenderConfig.MAX_RETRY_ATTEMPTS ∧
       countFixCalls (generate_and_render_with_retry env request).2 =
         RenderConfig.MAX_RETRY_ATTEMPTS - 1) := by
  cases hgen : call_llm_for_script env.generateRaw "generate Manim script" with
  | error e =>
    have hres : generate_and_render_with_retry env request = (Except.error e, []) := by
      rw [generate_and_render_with_retry, hgen]
    rw [hres]
    refine ⟨by simp [countRenderCalls], by simp [countFixCalls], ?_⟩
    rintro ⟨p, hp⟩
    exact absurd hp (by simp)
  | ok pr =>
    obtain ⟨script0, rid0⟩ := pr
    have hres : generate_and_render_with_retry env request =
        retryLoopAux env request.user_prompt RenderConfig.MAX_RETRY_ATTEMPTS
          RenderConfig.MAX_RETRY_ATTEMPTS 1
          (review_manim_script env.reviewRaw script0 rid0).1
          (pyOr (review_manim_script env.reviewRaw script0 rid0).2 rid0) := by
      rw [generate_and_render_with_retry, hgen]
    rw [hres]
    have hc := retryLoopAux_counts env request.user_prompt RenderConfig.MAX_RETRY_ATTEMPTS
      RenderConfig.MAX_RETRY_ATTEMPTS 1
      (review_manim_script env.reviewRaw script0 rid0).1
      (pyOr (review_manim_script env.reviewRaw script0 rid0).2 rid0)
      (Nat.add_comm 1 _)
    refine ⟨hc.1, hc.2, ?_⟩
    intro _ hfail hfix
    exact retryLoopAux_allFail env request.user_prompt RenderConfig.MAX_RETRY_ATTEMPTS
      hfail hfix RenderConfig.MAX_RETRY_ATTEMPTS 1
      (review_manim_script env.reviewRaw script0 rid0).1
      (pyOr (review_manim_script env.reviewRaw script0 rid0).2 rid0)
      (Nat.add_comm 1 _) (by decide)

/-- C2: the continuation id threaded through the loop is never overwritten
by an empty value — when the generation step returns a non-empty id, every
repair call carries a non-empty id; and when the review call fails (the
fallback path returning `previous_response_id or ""`), the repair call of
attempt 1 carries exactly the generation step's id. -/
theorem C2_continuation_preserved (env : Env) (request : AnimationRequest)
    (script0 : ManimScriptResponse) (rid0 : String)
    (hgen : call_llm_for_script env.generateRaw "generate Manim script" =
      Except.ok (script0, rid0)) :
    (rid0 ≠ "" → ∀ (n : Nat) (p : String),
      Event.fixCall n p ∈ (generate_and_render_with_retry env request).2 → p ≠ "") ∧
    ((∃ e, call_llm_for_script env.reviewRaw "review Manim script" = Except.error e) →
      ∀ p, Event.fixCall 1 p ∈ (generate_and_render_with_retry env request).2 → p = rid0) := by
  have hres : generate_and_render_with_retry env request =
      retryLoopAux env request.user_prompt RenderConfig.MAX_RETRY_ATTEMPTS
        RenderConfig.MAX_RETRY_ATTEMPTS 1
        (review_manim_script env.reviewRaw script0 rid0).1
        (pyOr (review_manim_script env.reviewRaw script0 rid0).2 rid0) := by
    rw [generate_and_render_with_retry, hgen]
  constructor
  · intro hr n p hmem
    rw [hres] at hmem
    exact retryLoopAux_fix_ids_nonempty env request.user_prompt
      RenderConfig.MAX_RETRY_ATTEMPTS RenderConfig.MAX_RETRY_ATTEMPTS 1 _ _
      (pyOr_ne_empty _ rid0 hr) n p hmem
  · rintro ⟨e, he⟩ p hmem
    rw [hres] at hmem
    have hrev : review_manim_script env.reviewRaw script0 rid0 = (script0, pyOr rid0 "") := by
      rw [review_manim_script, he]
    have hpy : pyOr (pyOr rid0 "") rid0 = rid0 := by
      by_cases h0 : rid0 = "" <;> simp [pyOr, h0]
    rw [hrev] at hmem
    simp only [hpy] at hmem
    exact (retryLoopAux_first_fix_id env request.user_prompt
      RenderConfig.MAX_RETRY_ATTEMPTS RenderConfig.MAX_RETRY_ATTEMPTS 1 script0 rid0).1 p hmem

/-- C3: when the renderer fails through attempt `k < MAX_RETRY_ATTEMPTS`
and the repair call after attempt `k` itself raises, the pipeline aborts
immediately with the wrapped `LLMGenerationError`: exactly `k` render
attempts were performed (the repair failure consumes none), no render
attempt beyond `k` happens, and the failing repair call is the last —
it is not retried. -/
theorem C3_repair_failure_fatal (env : Env) (request : AnimationRequest)
    (k : Nat) (e : PipelineError)
    (hgenok : ∃ p, call_llm_for_script env.generateRaw "generate Manim script" = Except.ok p)
    (hk1 : 1 ≤ k) (hkmax : k < RenderConfig.MAX_RETRY_ATTEMPTS)
    (hfail : ∀ n, n ≤ k → (env.subprocessAt n).success = false)
    (hfixok : ∀ n, n < k →
      ∃ p, call_llm_for_script (env.fixRaw n) "fix Manim script" = Except.ok p)
    (hfixerr : call_llm_for_script (env.fixRaw k) "fix Manim script" = Except.error e) :
    (generate_and_render_with_retry env request).1 =
      Except.error (PipelineError.llmGeneration
        ("Failed to fix script on attempt " ++ toString k ++ ": " ++ e.message)
        (some "error_correction") (some e)) ∧
    countRenderCalls (generate_and_render_with_retry env request).2 = k ∧
    countFixCalls (generate_and_render_with_retry env request).2 = k ∧
    (∀ (n : Nat) (s' : ManimScriptResponse) (t : RenderTriple) (ran : Bool),
      Event.renderCall n s' t ran ∈ (generate_and_render_with_retry env request).2 → n ≤ k) ∧
    (∀ (n : Nat) (p : String),
      Event.fixCall n p ∈ (generate_and_render_with_retry env request).2 → n ≤ k) := by
  obtain ⟨⟨script0, rid0⟩, hgen⟩ := hgenok
  have hres : generate_and_render_with_retry env request =
      retryLoopAux env request.user_prompt RenderConfig.MAX_RETRY_ATTEMPTS
        RenderConfig.MAX_RETRY_ATTEMPTS 1
        (review_manim_script env.reviewRaw script0 rid0).1
        (pyOr (review_manim_script env.reviewRaw script0 rid0).2 rid0) := by
    rw [generate_and_render_with_retry, hgen]
  obtain ⟨h1, h2, h3, h4, h5⟩ := retryLoopAux_fixFail env request.user_prompt
    RenderConfig.MAX_RETRY_ATTEMPTS k e hkmax hfail hfixok hfixerr
    RenderConfig.MAX_RETRY_ATTEMPTS 1
    (review_manim_script env.reviewRaw script0 rid0).1
    (pyOr (review_manim_script env.reviewRaw script0 rid0).2 rid0)
    (Nat.add_comm 1 _) hk1
  rw [hres]
  exact ⟨h1, by rw [h2]; omega, by rw [h3]; omega, h4, h5⟩

/-- C6: the validator-extracted entry-point name is authoritative —
`_call_llm_for_script` installs it over the LLM-declared name before any
result is returned, and every script the loop hands to the renderer
carries the name extracted from its own source. -/
theorem C6_extracted_name_authoritative :
    (∀ (response : ManimScriptResponse) (response_id error_context extracted : String),
      extract_scene_name response.code.parsed = some extracted →
      call_llm_for_script (LLMRaw.ok response response_id) error_context =
        Except.ok ({ response with scene_name := extracted }, response_id)) ∧
    (∀ (env : Env) (request : AnimationRequest) (n : Nat) (s : ManimScriptResponse)
       (t : RenderTriple) (ran : Bool),
      Event.renderCall n s t ran ∈ (generate_and_render_with_retry env request).2 →
      extract_scene_name s.code.parsed = some s.scene_name) := by
  refine ⟨call_llm_installs_extracted_name, ?_⟩
  intro env request n s t ran hmem
  cases hgen : call_llm_for_script env.generateRaw "generate Manim script" with
  | error e =>
    have hres : generate_and_render_with_retry env request = (Except.error e, []) := by
      rw [generate_and_render_with_retry, hgen]
    rw [hres] at hmem
    exact absurd hmem (List.not_mem_nil _)
  | ok pr =>
    obtain ⟨script0, rid0⟩ := pr
    have hres : generate_and_render_with_retry env request =
        retryLoopAux env request.user_prompt RenderConfig.MAX_RETRY_ATTEMPTS
          RenderConfig.MAX_RETRY_ATTEMPTS 1
          (review_manim_script env.reviewRaw script0 rid0).1
          (pyOr (review_manim_script env.reviewRaw script0 rid0).2 rid0) := by
      rw [generate_and_render_with_retry, hgen]
    rw [hres] at hmem
    have h0 : sceneNameConsistent script0 :=
      call_llm_ok_scene env.generateRaw "generate Manim script" script0 rid0 hgen
    have h1 : sceneNameConsistent (review_manim_script env.reviewRaw script0 rid0).1 := by
      rw [review_manim_script]
      cases hrev : call_llm_for_script env.reviewRaw "review Manim script" with
      | ok r =>
        obtain ⟨r1, r2⟩ := r
        exact call_llm_ok_scene env.reviewRaw "review Manim script" r1 r2 hrev
      | error e => exact h0
    exact retryLoopAux_render_scripts env request.user_prompt RenderConfig.MAX_RETRY_ATTEMPTS
      RenderConfig.MAX_RETRY_ATTEMPTS 1 _ _ h1 n s t ran hmem

/-- C7: a failure of the review call never aborts the pipeline and never
shifts attempt numbering — the loop runs exactly as if entered with the
pre-review script and the generation step's continuation id, and its first
interaction is the render attempt numbered 1 on that script. -/
theorem C7_review_failure_nonfatal (env : Env) (request : AnimationRequest)
    (script0 : ManimScriptResponse) (rid0 : String) (e : PipelineError)
    (hgen : call_llm_for_script env.generateRaw "generate Manim script" =
      Except.ok (script0, rid0))
    (hrev : call_llm_for_script env.reviewRaw "review Manim script" = Except.error e) :
    generate_and_render_with_retry env request =
      retryLoopAux env request.user_prompt RenderConfig.MAX_RETRY_ATTEMPTS
        RenderConfig.MAX_RETRY_ATTEMPTS 1 script0 rid0 ∧
    (∃ t ran, (generate_and_render_with_retry env request).2.head? =
      some (Event.renderCall 1 script0 t ran)) := by
  have hrevfall : review_manim_script env.reviewRaw script0 rid0 = (script0, pyOr rid0 "") := by
    rw [review_manim_script, hrev]
  have hpy : pyOr (pyOr rid0 "") rid0 = rid0 := by
    by_cases h0 : rid0 = "" <;> simp [pyOr, h0]
  have hres : generate_and_render_with_retry env request =
      retryLoopAux env request.user_prompt RenderConfig.MAX_RETRY_ATTEMPTS
        RenderConfig.MAX_RETRY_ATTEMPTS 1 script0 rid0 := by
    simp only [generate_and_render_with_retry, hgen, hrevfall, hpy]
  refine ⟨hres, ?_⟩
  rw [hres]
  exact retryLoopAux_first_event env request.user_prompt RenderConfig.MAX_RETRY_ATTEMPTS
    4 1 script0 rid0

/-- C8: an archival failure is invisible in the reported result apart from
omitting the persisted-script location — with a failing write, `generate`
produces the same trace and the same outcome (same video path, alt text,
scene name and duration on success; the same error otherwise), with
`script_path` forced to `None`. -/
theorem C8_archival_failure_isolated (env : Env) (request : AnimationRequest) :
    (generateAgent { env with saveOk := false } request).1 =
      Except.map (fun g => { g with script_path := none })
        (generateAgent { env with saveOk := true } request).1 ∧
    (generateAgent { env with saveOk := false } request).2 =
      (generateAgent { env with saveOk := true } request).2 := by
  have hloop := retryLoopAux_saveOk env request.user_prompt RenderConfig.MAX_RETRY_ATTEMPTS
  have hgr : generate_and_render_with_retry { env with saveOk := false } request =
      ((generate_and_render_with_retry { env with saveOk := true } request).1.map
         (fun x => (x.1, x.2.1, none)),
       (generate_and_render_with_retry { env with saveOk := true } request).2) := by
    rw [generate_and_render_with_retry, generate_and_render_with_retry]
    cases hgen : call_llm_for_script env.generateRaw "generate Manim script" with
    | error e => simp [hgen, Except.map]
    | ok pr =>
      obtain ⟨script0, rid0⟩ := pr
      simp only [hgen]
      exact hloop RenderConfig.MAX_RETRY_ATTEMPTS 1
        (review_manim_script env.reviewRaw script0 rid0).1
        (pyOr (review_manim_script env.reviewRaw script0 rid0).2 rid0)
  rw [generateAgent, generateAgent, hgr]
  by_cases hins : env.manimInstalled
  · rcases hT : generate_and_render_with_retry { env with saveOk := true } request with ⟨res, evs⟩
    have hc1 : ({ env with saveOk := false } : Env).manimInstalled = true := hins
    have hc2 : ({ env with saveOk := true } : Env).manimInstalled = true := hins
    simp only [hc1, hc2, Bool.not_true]
    cases res with
    | error e => cases e <;> simp [hins, Except.map]
    | ok x =>
      obtain ⟨s, v, saved⟩ := x
      simp [hins, Except.map]
  · have hmi : env.manimInstalled = false := by
      revert hins; cases env.manimInstalled <;> simp
    simp [hmi, Except.map]

/-- C10: source code that imports os, subprocess, sys or shutil, or calls
open, exec, eval or __import__ by plain name, is rejected up front —
`render_animation` returns the ordinary failure triple naming the
dangerous operations without ever launching the manim subprocess, and
inside the loop such a render attempt fails like any other (consuming its
attempt) with the subprocess never run. -/
theorem C10_dangerous_code_never_rendered :
    (∀ (subprocessOutcome : RenderTriple) (code : SourceText) (tree : PyNode),
      code.parsed = ParseResult.ok tree → usesDangerousOperation tree →
      render_animation_t subprocessOutcome code =
        ({ success := false, video_path := none,
           error_msg := some ("Potentially dangerous operations detected: "
             ++ String.intercalate ", " ((walk tree).flatMap dangerFlags)) }, false)) ∧
    (∀ (env : Env) (request : AnimationRequest) (n : Nat) (s : ManimScriptResponse)
       (t : RenderTriple) (ran : Bool) (tree : PyNode),
      Event.renderCall n s t ran ∈ (generate_and_render_with_retry env request).2 →
      s.code.parsed = ParseResult.ok tree → usesDangerousOperation tree →
      t.success = false ∧ t.video_path = none ∧ ran = false) := by
  refine ⟨render_rejects_dangerous, ?_⟩
  intro env request n s t ran tree hmem hp hd
  have hout : (t, ran) = render_animation_t (env.subprocessAt n) s.code := by
    cases hgen : call_llm_for_script env.generateRaw "generate Manim script" with
    | error e =>
      have hres : generate_and_render_with_retry env request = (Except.error e, []) := by
        rw [generate_and_render_with_retry, hgen]
      rw [hres] at hmem
      exact absurd hmem (List.not_mem_nil _)
    | ok pr =>
      obtain ⟨script0, rid0⟩ := pr
      have hres : generate_and_render_with_retry env request =
          retryLoopAux env request.user_prompt RenderConfig.MAX_RETRY_ATTEMPTS
            RenderConfig.MAX_RETRY_ATTEMPTS 1
            (review_manim_script env.reviewRaw script0 rid0).1
            (pyOr (review_manim_script env.reviewRaw script0 rid0).2 rid0) := by
        rw [generate_and_render_with_retry, hgen]
      rw [hres] at hmem
      exact retryLoopAux_render_outcome env request.user_prompt RenderConfig.MAX_RETRY_ATTEMPTS
        RenderConfig.MAX_RETRY_ATTEMPTS 1 _ _ n s t ran hmem
  rw [render_rejects_dangerous (env.subprocessAt n) s.code tree hp hd] at hout
  simp only [Prod.mk.injEq] at hout
  obtain ⟨rfl, rfl⟩ := hout
  exact ⟨rfl, rfl, rfl⟩

/-! ## Concrete data used by the closed instantiations -/

def demoTree : PyNode :=
  module [importFrom (some "manim") ["*"],
    classDef "DemoScene" [name "Scene"] [functionDef "construct" [passStmt]]]

def demoCode : SourceText :=
  { raw := "from manim import *\n\nclass DemoScene(Scene):\n    def construct(self):\n        pass\n",
    parsed := ParseResult.ok demoTree }

def demoScript : ManimScriptResponse :=
  { scene_name := "DemoScene", description := "A circle is drawn",
    code := demoCode, estimated_duration := "20.0" }

def mismatchScript : ManimScriptResponse :=
  { scene_name := "CircleScene", description := "A circle is drawn",
    code := demoCode, estimated_duration := "20.0" }

def badParseScript : ManimScriptResponse :=
  { scene_name := "BrokenScene", description := "Does not parse",
    code := { raw := "class BrokenScene(Scene:\n    pass\n",
              parsed := ParseResult.syntaxErr "invalid syntax (scene.py, line 1)" },
    estimated_duration := "10.0" }

def dangerTree : PyNode :=
  module [importStmt ["os"],
    classDef "EvilScene" [name "Scene"] [functionDef "construct"
      [exprStmt (call (name "eval") [constant])]]]

def dangerCode : SourceText :=
  { raw := "import os\n\nclass EvilScene(Scene):\n    def construct(self):\n        eval(\x22 \x22)\n",
    parsed := ParseResult.ok dangerTree }

def failTriple (k : Nat) : RenderTriple :=
  { success := false, video_path := none,
    error_msg := some ("Manim error: failure at attempt " ++ toString k) }

def raisedBoom : PipelineError :=
  PipelineError.llmGeneration "Responses API error: boom" none none

def reviewWrappedError : PipelineError :=
  PipelineError.llmGeneration ("Failed to review Manim script: " ++ raisedBoom.message)
    (some "review Manim script") (some raisedBoom)

def fixWrappedError : PipelineError :=
  PipelineError.llmGeneration ("Failed to fix Manim script: " ++ raisedBoom.message)
    (some "fix Manim script") (some raisedBoom)

def baseEnv : Env :=
  { generateRaw := LLMRaw.ok demoScript "resp-gen",
    reviewRaw := LLMRaw.raised raisedBoom,
    fixRaw := fun _ => LLMRaw.ok demoScript "resp-fix",
    subprocessAt := fun k => failTriple k }

def fixFailEnv : Env :=
  { generateRaw := LLMRaw.ok demoScript "resp-gen",
    reviewRaw := LLMRaw.ok demoScript "resp-rev",
    fixRaw := fun n => if n = 2 then LLMRaw.raised raisedBoom
                       else LLMRaw.ok demoScript "resp-fix",
    subprocessAt := fun k => failTriple k }

def demoRequest : AnimationRequest := { user_prompt := "draw a circle" }

/-! ## Witnesses -/

/-- C1 instantiated: with generation succeeding, all repairs succeeding and
every subprocess failing, the run performs exactly 5 renders and 4
repairs. -/
theorem C1_retry_budget_witness :
    (∃ p, call_llm_for_script baseEnv.generateRaw "generate Manim script" = Except.ok p) ∧
    (∀ n, (baseEnv.subprocessAt n).success = false) ∧
    (∀ n, ∃ p, call_llm_for_script (baseEnv.fixRaw n) "fix Manim script" = Except.ok p) ∧
    countRenderCalls (generate_and_render_with_retry baseEnv demoRequest).2 =
      RenderConfig.MAX_RETRY_ATTEMPTS ∧
    countFixCalls (generate_and_render_with_retry baseEnv demoRequest).2 =
      RenderConfig.MAX_RETRY_ATTEMPTS - 1 := by
  have h := (C1_retry_budget baseEnv demoRequest).2.2
    ⟨(demoScript, "resp-gen"), rfl⟩ (fun n => rfl) (fun n => ⟨(demoScript, "resp-fix"), rfl⟩)
  obtain ⟨sl, t, ran, _, _, _, h4, h5⟩ := h
  exact ⟨⟨(demoScript, "resp-gen"), rfl⟩, fun n => rfl,
    fun n => ⟨(demoScript, "resp-fix"), rfl⟩, h4, h5⟩

/-- C2 instantiated: the generation id is non-empty, the review call
fails, and the attempt-1 repair call still carries the generation id. -/
theorem C2_continuation_preserved_witness :
    call_llm_for_script baseEnv.generateRaw "generate Manim script" =
      Except.ok (demoScript, "resp-gen") ∧
    ("resp-gen" : String) ≠ "" ∧
    (∃ e, call_llm_for_script baseEnv.reviewRaw "review Manim script" = Except.error e) ∧
    (∀ p, Event.fixCall 1 p ∈ (generate_and_render_with_retry baseEnv demoRequest).2 →
      p = "resp-gen") := by
  refine ⟨rfl, by decide, ⟨reviewWrappedError, rfl⟩, ?_⟩
  exact (C2_continuation_preserved baseEnv demoRequest demoScript "resp-gen" rfl).2
    ⟨reviewWrappedError, rfl⟩

/-- C3 instantiated: renders fail on attempts 1 and 2, the repair after
attempt 2 raises — the run aborts with the wrapped repair error after
exactly 2 renders and 2 repair calls. -/
theorem C3_repair_failure_fatal_witness :
    (∃ p, call_llm_for_script fixFailEnv.generateRaw "generate Manim script" = Except.ok p) ∧
    (1 : Nat) ≤ 2 ∧ 2 < RenderConfig.MAX_RETRY_ATTEMPTS ∧
    (∀ n, n ≤ 2 → (fixFailEnv.subprocessAt n).success = false) ∧
    (∀ n, n < 2 →
      ∃ p, call_llm_for_script (fixFailEnv.fixRaw n) "fix Manim script" = Except.ok p) ∧
    call_llm_for_script (fixFailEnv.fixRaw 2) "fix Manim script" =
      Except.error fixWrappedError ∧
    (generate_and_render_with_retry fixFailEnv demoRequest).1 =
      Except.error (PipelineError.llmGeneration
        ("Failed to fix script on attempt " ++ toString (2 : Nat) ++ ": "
          ++ fixWrappedError.message)
        (some "error_correction") (some fixWrappedError)) ∧
    countRenderCalls (generate_and_render_with_retry fixFailEnv demoRequest).2 = 2 ∧
    countFixCalls (generate_and_render_with_retry fixFailEnv demoRequest).2 = 2 := by
  have hfixok : ∀ n, n < 2 →
      ∃ p, call_llm_for_script (fixFailEnv.fixRaw n) "fix Manim script" = Except.ok p := by
    intro n hn
    refine ⟨(demoScript, "resp-fix"), ?_⟩
    have hfr : fixFailEnv.fixRaw n = LLMRaw.ok demoScript "resp-fix" := by
      show (if n = 2 then LLMRaw.raised raisedBoom
            else LLMRaw.ok demoScript "resp-fix") = LLMRaw.ok demoScript "resp-fix"
      rw [if_neg (by omega)]
    rw [hfr]
    rfl
  have h := C3_repair_failure_fatal fixFailEnv demoRequest 2 fixWrappedError
    ⟨(demoScript, "resp-gen"), rfl⟩ (by decide) (by decide)
    (fun n _ => rfl) hfixok rfl
  exact ⟨⟨(demoScript, "resp-gen"), rfl⟩, by decide, by decide, fun n _ => rfl, hfixok, rfl,
    h.1, h.2.1, h.2.2.1⟩

/-- C4 instantiated: a source with exactly one qualifying class definition
yields its name; a source with none yields nothing. -/
theorem C4_extract_scene_name_witness :
    demoTree.subnodes.filterMap sceneClassName = ["DemoScene"] ∧
    extract_scene_name (ParseResult.ok demoTree) = some "DemoScene" ∧
    (module []).subnodes.filterMap sceneClassName = [] ∧
    extract_scene_name (ParseResult.ok (module [])) = none :=
  ⟨rfl, (C4_extract_scene_name demoTree "DemoScene").1 rfl, rfl,
   (C4_extract_scene_name (module []) "DemoScene").2 rfl⟩

/-- C5 (amended) instantiated: a response whose code does not parse makes
`_call_llm_for_script` fail with the wrapped scene-class validation
error. -/
theorem C5_unparseable_fails_validation_witness :
    badParseScript.code.parsed = ParseResult.syntaxErr "invalid syntax (scene.py, line 1)" ∧
    call_llm_for_script (LLMRaw.ok badParseScript "resp-1") "generate Manim script" =
      Except.error (PipelineError.llmGeneration
        ("Failed to " ++ "generate Manim script" ++ ": " ++ sceneClassValidationError.message)
        (some "generate Manim script") (some sceneClassValidationError)) :=
  ⟨rfl, (C5_unparseable_fails_validation badParseScript "resp-1"
    "invalid syntax (scene.py, line 1)" "generate Manim script" rfl).2⟩

/-- C6 instantiated: the LLM declares `CircleScene` but the source defines
`DemoScene`; the call result carries `DemoScene`. -/
theorem C6_extracted_name_authoritative_witness :
    extract_scene_name mismatchScript.code.parsed = some "DemoScene" ∧
    call_llm_for_script (LLMRaw.ok mismatchScript "resp-1") "generate Manim script" =
      Except.ok ({ mismatchScript with scene_name := "DemoScene" }, "resp-1") :=
  ⟨rfl, C6_extracted_name_authoritative.1 mismatchScript "resp-1"
    "generate Manim script" "DemoScene" rfl⟩

/-- C7 instantiated: generation succeeds, review raises — the first trace
entry is still the render attempt numbered 1 on the pre-review script. -/
theorem C7_review_failure_nonfatal_witness :
    call_llm_for_script baseEnv.generateRaw "generate Manim script" =
      Except.ok (demoScript, "resp-gen") ∧
    call_llm_for_script baseEnv.reviewRaw "review Manim script" =
      Except.error reviewWrappedError ∧
    (∃ t ran, (generate_and_render_with_retry baseEnv demoRequest).2.head? =
      some (Event.renderCall 1 demoScript t ran)) :=
  ⟨rfl, rfl, (C7_review_failure_nonfatal baseEnv demoRequest demoScript "resp-gen"
    reviewWrappedError rfl rfl).2⟩

/-- C10 instantiated: a script importing `os` (and calling `eval`) is
rejected by the gate for every subprocess oracle. -/
theorem C10_dangerous_code_never_rendered_witness :
    dangerCode.parsed = ParseResult.ok dangerTree ∧
    usesDangerousOperation dangerTree ∧
    (∀ subprocessOutcome, render_animation_t subprocessOutcome dangerCode =
      ({ success := false, video_path := none,
         error_msg := some ("Potentially dangerous operations detected: "
           ++ String.intercalate ", " ((walk dangerTree).flatMap dangerFlags)) }, false)) := by
  have hd : usesDangerousOperation dangerTree := by
    refine ⟨importStmt ["os"], ?_, ?_⟩
    · simp [dangerTree, PyNode.subnodes, PyNode.subnodesList]
    · simp [dangerFlags, dangerousImports]
  exact ⟨rfl, hd,
    fun subprocessOutcome =>
      C10_dangerous_code_never_rendered.1 subprocessOutcome dangerCode dangerTree rfl hd⟩
